import Mathlib

/-!
Verification of the `delu` instrumentation primitives: `Timer`, `ProgressTracker`,
`EarlyStopping` (spec sections 3-4, 6-8) and `IndexDataset` (src/delu/data.py).

The implementations of `Timer`, `ProgressTracker` and `EarlyStopping` are not
present under src/ (only their tests, src/delu/tests/test__tools.py and
src/delu/tests/test__utils.py, are), so they are modelled from the spec; where
the spec's prose conflicts with the behavior asserted by the repository's tests,
the definitions follow the tests and the doc comments record the deviation.
Scores, durations and timestamps are modelled as rationals; the clock is passed
explicitly as a `now` argument (spec section 9 asks for an injectable clock).
Python exceptions are modelled with the `PyErr` type; an operation that can
raise returns either an `Except` or a pair `(Option PyErr) × state`, where the
error case leaves the state unchanged, as a raised assertion does in Python.
-/

namespace Delu

/-- Python error values raised by the modelled operations: `ValueError` for bad
configuration, `AssertionError` for precondition violations, `IndexError` for
out-of-range accesses. -/
inductive PyErr where
  | valueError : String → PyErr
  | assertionError : PyErr
  | indexError : String → PyErr
deriving DecidableEq, Repr

/-! ## Timer (spec section 4.1) -/

/-- Phase of a `Timer`: `idle` (never run, or after `reset`), `running` with the
timestamp at which the current run started, or `paused` after at least one run.
The idle/paused distinction is needed because `pause()` on a timer that has
never been run is a precondition violation (spec section 4.1, last bullet;
src/delu/tests/test__utils.py line 143), while `pause()` on a paused timer is a
no-op. -/
inductive TimerPhase where
  | idle : TimerPhase
  | running : ℚ → TimerPhase
  | paused : TimerPhase
deriving DecidableEq, Repr

/-- Modelled from the spec: the state of delu's `Timer`, whose implementation is
not under src/. `accumulated` is the total measured time; the running timestamp
of spec section 3 lives in the `phase`. -/
structure Timer where
  accumulated : ℚ
  phase : TimerPhase
deriving DecidableEq, Repr

/-- Modelled from the spec: a freshly constructed `Timer` is idle with
`accumulated = 0`. -/
def Timer.initial : Timer := ⟨0, .idle⟩

/-- Modelled from the spec: `Timer.__call__` / `elapsed()` returns `accumulated`
plus, if running, the in-flight duration since the run started; it never
mutates state, and a never-run timer yields 0. -/
def Timer.elapsed (now : ℚ) (t : Timer) : ℚ :=
  t.accumulated +
    match t.phase with
    | .running since => now - since
    | _ => 0

/-- Modelled from the spec: `Timer.run()` is a no-op when already running and
otherwise starts running from the current timestamp. -/
def Timer.run (now : ℚ) (t : Timer) : Timer :=
  match t.phase with
  | .running _ => t
  | _ => { t with phase := .running now }

/-- Modelled from the spec: `Timer.pause()` raises an `AssertionError` if the
timer has never been run, is a no-op when already paused, and otherwise folds
the in-flight duration into `accumulated`. The error case leaves the timer
unchanged. -/
def Timer.pause (now : ℚ) (t : Timer) : Option PyErr × Timer :=
  match t.phase with
  | .idle => (some .assertionError, t)
  | .paused => (none, t)
  | .running since => (none, ⟨t.accumulated + (now - since), .paused⟩)

/-- Modelled from the spec: `Timer.add(d)` adds `d` to `accumulated`, raising an
`AssertionError` (state unchanged) when `d` is negative. -/
def Timer.add (d : ℚ) (t : Timer) : Option PyErr × Timer :=
  if d < 0 then (some .assertionError, t)
  else (none, { t with accumulated := t.accumulated + d })

/-- Modelled from the spec: `Timer.sub(d)` subtracts `d` from `accumulated`,
raising an `AssertionError` (state unchanged) when `d` is negative. -/
def Timer.sub (d : ℚ) (t : Timer) : Option PyErr × Timer :=
  if d < 0 then (some .assertionError, t)
  else (none, { t with accumulated := t.accumulated - d })

/-- Modelled from the spec: `Timer.reset()` returns to the initial idle state
with `accumulated = 0`. -/
def Timer.reset (_t : Timer) : Timer := Timer.initial

/-- Executing one matched `add x` / `sub x` pair, taking the post-state whether
or not the operations raise (a raise leaves the state unchanged). -/
def Timer.addSubPair (x : ℚ) (t : Timer) : Timer :=
  ((t.add x).2.sub x).2

/-- Executing a finite sequence of matched `add`/`sub` pairs. -/
def Timer.addSubPairs (t : Timer) (xs : List ℚ) : Timer :=
  xs.foldl (fun s x => s.addSubPair x) t

/-! ### Timer rendering (spec section 4.1, "Formatting") -/

/-- Left-pad the decimal rendering of `n` with zeros to width `w`. -/
def padNum (w : Nat) (n : Nat) : String :=
  String.mk (List.replicate (w - (toString n).length) '0') ++ toString n

/-- The `H:MM:SS` part of rendering a duration of `us` microseconds. -/
def timedeltaHMS (us : Nat) : String :=
  let s := us / 1000000
  toString (s / 3600) ++ ":" ++ padNum 2 (s / 60 % 60) ++ ":" ++ padNum 2 (s % 60)

/-- Modelled from the spec: rendering a duration of `us` microseconds as
`H:MM:SS[.ffffff]`, the fractional-seconds part included exactly when the
microsecond remainder is nonzero (spec section 4.1: "fractional seconds
included only when non-integral"; src/delu/tests/test__tools.py lines 142-143). -/
def timedeltaStr (us : Nat) : String :=
  timedeltaHMS us ++
    (if us % 1000000 = 0 then "" else "." ++ padNum 6 (us % 1000000))

/-- A rational number of seconds converted to whole microseconds. -/
def microsOfRat (q : ℚ) : Nat := (Int.floor (q * 1000000)).toNat

/-- Modelled from the spec: `str(timer)` renders the elapsed time as
`H:MM:SS[.ffffff]`. -/
def Timer.timeStr (now : ℚ) (t : Timer) : String :=
  timedeltaStr (microsOfRat (t.elapsed now))

/-- A minimal strftime-like renderer over hours/minutes/seconds: `%H`, `%M` and
`%S` are replaced by the zero-padded two-digit values, every other character is
copied verbatim. -/
def strftimeHMS (h m s : Nat) : List Char → String
  | [] => ""
  | '%' :: c :: rest =>
      (if c = 'H' then padNum 2 h
       else if c = 'M' then padNum 2 m
       else if c = 'S' then padNum 2 s
       else String.mk ['%', c]) ++ strftimeHMS h m s rest
  | c :: rest => String.mk [c] ++ strftimeHMS h m s rest

/-- Modelled from the spec: `Timer.format(pattern)` renders the elapsed
duration through a caller-supplied strftime-like pattern (whole seconds, as
`time.gmtime` truncates; hours wrap at 24 as in strftime's `%H`). -/
def Timer.format (now : ℚ) (t : Timer) (pattern : String) : String :=
  let s := (Int.floor (t.elapsed now)).toNat
  strftimeHMS (s / 3600 % 24) (s / 60 % 60) (s % 60) pattern.data

/-! ## ProgressTracker (spec sections 3, 4.2) -/

/-- The outcome of the most recent `ProgressTracker.update` (`last_outcome` in
spec section 3): `neutral` also describes the initial state. -/
inductive PTStatus where
  | neutral : PTStatus
  | success : PTStatus
  | fail : PTStatus
deriving DecidableEq, Repr

/-- Modelled from the spec: the state of delu's `ProgressTracker`, whose
implementation is not under src/. `patience = none` means unlimited patience
(never fails). -/
structure ProgressTracker where
  patience : Option Nat
  min_delta : ℚ
  best_score : Option ℚ
  bad_streak : Nat
  status : PTStatus
deriving DecidableEq, Repr

/-- Modelled from the spec: a freshly constructed tracker has no best score, a
zero bad streak and a neutral status. -/
def ProgressTracker.new (patience : Option Nat) (min_delta : ℚ) : ProgressTracker :=
  ⟨patience, min_delta, none, 0, .neutral⟩

/-- `success()` reads true exactly when the last update was a success. -/
def ProgressTracker.success (t : ProgressTracker) : Bool :=
  decide (t.status = .success)

/-- `fail()` reads true exactly when the allowed non-improving streak was
exceeded by the last update. -/
def ProgressTracker.fail (t : ProgressTracker) : Bool :=
  decide (t.status = .fail)

/-- Modelled from the spec: `ProgressTracker.update(score)` (spec section 4.2).
A score improves when there is no best score yet or when it exceeds
`best_score + min_delta`; the comparison is strict, as pinned by the
repository's tests (src/delu/tests/test__tools.py lines 184-192: with
`min_delta = 2` an improvement of exactly 2 is a failure), although spec
section 4.2 words the threshold as `≥`. A non-improving update increments
`bad_streak` and fails exactly when `patience` is set and the streak exceeds
it (src/delu/tests/test__tools.py lines 173-181: with `patience = 1` the first
non-improving update is neutral, the second fails); otherwise it is neutral. -/
def ProgressTracker.update (t : ProgressTracker) (score : ℚ) : ProgressTracker :=
  let improved : Bool :=
    match t.best_score with
    | none => true
    | some b => decide (b + t.min_delta < score)
  if improved then
    { t with best_score := some score, bad_streak := 0, status := .success }
  else
    let streak := t.bad_streak + 1
    let st : PTStatus :=
      match t.patience with
      | some p => if p < streak then .fail else .neutral
      | none => .neutral
    { t with bad_streak := streak, status := st }

/-- Modelled from the spec: `forget_bad_updates()` zeroes the bad streak and
leaves `best_score` untouched; the status returns to neutral so that `fail()`
immediately afterwards reads false (spec section 8), although spec section 4.2
says `last_outcome` is not altered - the two sentences conflict and section 8
is the one the tests exercise. -/
def ProgressTracker.forget_bad_updates (t : ProgressTracker) : ProgressTracker :=
  { t with bad_streak := 0, status := .neutral }

/-- Modelled from the spec: `reset()` fully reinitializes the tracker, keeping
only its configuration. -/
def ProgressTracker.reset (t : ProgressTracker) : ProgressTracker :=
  ProgressTracker.new t.patience t.min_delta

/-- Folding a list of scores through `ProgressTracker.update`. -/
def ProgressTracker.updates (t : ProgressTracker) (xs : List ℚ) : ProgressTracker :=
  xs.foldl ProgressTracker.update t

/-! ## EarlyStopping (spec sections 3, 4.3) -/

/-- Modelled from the spec: the state of delu's `EarlyStopping`, whose
implementation is not under src/. `maximize` is true for `mode = "max"`. The
constructor `EarlyStopping.make` only produces states with `1 ≤ patience` and
`0 ≤ min_delta`. -/
structure EarlyStopping where
  patience : Nat
  maximize : Bool
  min_delta : ℚ
  best_score : Option ℚ
  bad_streak : Nat
deriving DecidableEq, Repr

/-- Modelled from the spec: the `EarlyStopping` constructor validates
`patience > 0`, `mode ∈ \x7bmin, max\x7d` and `min_delta ≥ 0`, raising a
`ValueError` otherwise (spec sections 4.3 and 7;
src/delu/tests/test__tools.py lines 10-15). -/
def EarlyStopping.make (patience : Int) (mode : String) (min_delta : ℚ) :
    Except PyErr EarlyStopping :=
  if patience < 1 then
    .error (.valueError "patience must be a positive integer")
  else if mode = "min" ∨ mode = "max" then
    if min_delta < 0 then
      .error (.valueError "min_delta must be a non-negative number")
    else
      .ok ⟨patience.toNat, mode = "max", min_delta, none, 0⟩
  else
    .error (.valueError "mode must be either min or max")

/-- Whether `score` improves on the current best: under `max` it must exceed
`best + min_delta`, under `min` it must fall below `best - min_delta`; with no
best score yet every score improves. The comparisons are strict, as pinned by
src/delu/tests/test__tools.py lines 52-59. -/
def EarlyStopping.improves (es : EarlyStopping) (score : ℚ) : Bool :=
  match es.best_score with
  | none => true
  | some b =>
      if es.maximize then decide (b + es.min_delta < score)
      else decide (score < b - es.min_delta)

/-- Modelled from the spec: `EarlyStopping.update(score)` records the score as
the new best and zeroes the bad streak when it improves, and otherwise
increments the bad streak. -/
def EarlyStopping.update (es : EarlyStopping) (score : ℚ) : EarlyStopping :=
  if es.improves score then
    { es with best_score := some score, bad_streak := 0 }
  else
    { es with bad_streak := es.bad_streak + 1 }

/-- Modelled from the spec: `should_stop()` is a pure query of the bad streak
against `patience`. The tests pin the comparison as `patience ≤ bad_streak`
(src/delu/tests/test__tools.py lines 17-21: with `patience = 1` a single
non-improving update already stops), although spec section 4.3 words it as
"exceeds". -/
def EarlyStopping.shouldStop (es : EarlyStopping) : Bool :=
  decide (es.patience ≤ es.bad_streak)

/-- Modelled from the spec: `forget_bad_updates()` zeroes the bad streak and
leaves the best score untouched. -/
def EarlyStopping.forget_bad_updates (es : EarlyStopping) : EarlyStopping :=
  { es with bad_streak := 0 }

/-- Modelled from the spec: `reset()` fully reinitializes the stopper, keeping
only its configuration. -/
def EarlyStopping.reset (es : EarlyStopping) : EarlyStopping :=
  { es with best_score := none, bad_streak := 0 }

/-- Folding a list of scores through `EarlyStopping.update`. -/
def EarlyStopping.updates (es : EarlyStopping) (xs : List ℚ) : EarlyStopping :=
  xs.foldl EarlyStopping.update es

/-! ## IndexDataset (src/delu/data.py lines 260-283) -/

/-- `delu.data.IndexDataset`: a trivial dataset that yields indices back
(src/delu/data.py lines 227-283). -/
structure IndexDataset where
  size : Int
deriving DecidableEq, Repr

/-- `IndexDataset.__init__`: raises `ValueError` when `size < 1`
(src/delu/data.py lines 260-268). -/
def IndexDataset.make (size : Int) : Except PyErr IndexDataset :=
  if size < 1 then .error (.valueError "size must be positive")
  else .ok ⟨size⟩

/-- `IndexDataset.__len__` returns the stored size (src/delu/data.py
lines 270-272). -/
def IndexDataset.len (d : IndexDataset) : Int := d.size

/-- `IndexDataset.__getitem__(i)`: raises `IndexError` when `i < 0` or
`i ≥ size`, and returns `i` itself otherwise (src/delu/data.py
lines 274-283). -/
def IndexDataset.getitem (d : IndexDataset) (i : Int) : Except PyErr Int :=
  if i < 0 ∨ d.size ≤ i then
    .error (.indexError "index is out of range")
  else
    .ok i

/-! ## Claims -/

/-- C1, counterexample: the claim says an update whose improvement is exactly
`min_delta` is a success. On the modelled tracker (comparison pinned by
src/delu/tests/test__tools.py lines 184-192) it is not: with `min_delta = 2`,
best score 0 and new score 2, `success()` reads false after the update. -/
theorem C1_counterexample :
    (((ProgressTracker.new (some 0) 2).update 0).update 2).success = false ∧
      (((ProgressTracker.new (some 0) 2).update 0).update 2).best_score = some 0 := by
  norm_num [ProgressTracker.new, ProgressTracker.update, ProgressTracker.success]
  decide

/-- C1, amended: for every ProgressTracker with a set best score `b`, an
`update(score)` with `score - b` exactly equal to `min_delta` is classified as
non-improving (the comparison is strict `>`, not `≥`): `best_score` stays
`some b`, `bad_streak` is incremented and `success()` reads false; success
requires `score - b` strictly greater than `min_delta`, in which case
`best_score` becomes `score` and `bad_streak` becomes 0. -/
theorem C1_amended (t : ProgressTracker) (b score : ℚ) (hb : t.best_score = some b) :
    (score - b = t.min_delta →
      (t.update score).success = false ∧ (t.update score).best_score = some b ∧
        (t.update score).bad_streak = t.bad_streak + 1)
    ∧ (t.min_delta < score - b →
      (t.update score).success = true ∧ (t.update score).best_score = some score ∧
        (t.update score).bad_streak = 0) := by
  constructor
  · intro h
    have hbd : b + t.min_delta = score := by rw [← h]; ring
    have hlt : ¬ b + t.min_delta < score := by rw [hbd]; exact lt_irrefl _
    have hcond : (decide (b + t.min_delta < score)) = false := decide_eq_false hlt
    rcases hp : t.patience with _ | p
    · simp [ProgressTracker.update, ProgressTracker.success, hb, hcond, hp]
    · by_cases hpp : p < t.bad_streak + 1 <;>
        simp [ProgressTracker.update, ProgressTracker.success, hb, hcond, hp, hpp]
  · intro h
    have hlt : b + t.min_delta < score := by linarith
    have hcond : (decide (b + t.min_delta < score)) = true := decide_eq_true hlt
    simp [ProgressTracker.update, ProgressTracker.success, hb, hcond]

/-- C1, witness: the amended theorem applied to the concrete tracker with
`min_delta = 2` and best score 0, once at score 2 (improvement exactly
`min_delta`, not a success) and once at score 3 (improvement strictly above
`min_delta`, a success). -/
theorem C1_witness :
    ((((ProgressTracker.new (some 0) 2).update 0).update 2).success = false ∧
      (((ProgressTracker.new (some 0) 2).update 0).update 2).best_score = some 0 ∧
      (((ProgressTracker.new (some 0) 2).update 0).update 2).bad_streak =
        ((ProgressTracker.new (some 0) 2).update 0).bad_streak + 1) ∧
    ((((ProgressTracker.new (some 0) 2).update 0).update 3).success = true ∧
      (((ProgressTracker.new (some 0) 2).update 0).update 3).best_score = some 3 ∧
      (((ProgressTracker.new (some 0) 2).update 0).update 3).bad_streak = 0) := by
  have hb : ((ProgressTracker.new (some 0) 2).update 0).best_score = some 0 := by
    norm_num [ProgressTracker.new, ProgressTracker.update]
  have hd : ((ProgressTracker.new (some 0) 2).update 0).min_delta = 2 := by
    norm_num [ProgressTracker.new, ProgressTracker.update]
  exact ⟨(C1_amended _ 0 2 hb).1 (by rw [hd]; norm_num),
    (C1_amended _ 0 3 hb).2 (by rw [hd]; norm_num)⟩

/-- C2, counterexample: the claim says `EarlyStopping(patience=2, mode="min")`
fed `0.0, 1.0, 1.0` (the second `1.0`) still has `should_stop()` false. On the
modelled stopper (comparison pinned by src/delu/tests/test__tools.py
lines 17-21) it is already true: two consecutive non-improving updates reach
patience 2. -/
theorem C2_counterexample :
    (EarlyStopping.make 2 "min" 0).map
      (fun es => (((es.update 0).update 1).update 1).shouldStop) = .ok true := by
  have hmk : EarlyStopping.make 2 "min" 0 = .ok ⟨2, false, 0, none, 0⟩ := rfl
  rw [hmk]
  norm_num [EarlyStopping.update, EarlyStopping.improves,
    EarlyStopping.shouldStop, Except.map]

/-- C2, amended: `should_stop()` returns true if and only if the current streak
of consecutive non-improving updates is at least `patience` (`≥`, not strictly
greater); `EarlyStopping(patience=2, mode="min")` fed `0.0, 1.0, 1.0, 1.0` has
`should_stop()` false after `0.0` and after the first `1.0`, and true after the
second and after the third `1.0`. -/
theorem C2_amended :
    (∀ es : EarlyStopping, es.shouldStop = true ↔ es.patience ≤ es.bad_streak)
    ∧ (EarlyStopping.make 2 "min" 0).map
        (fun es =>
          ((es.update 0).shouldStop,
           ((es.update 0).update 1).shouldStop,
           (((es.update 0).update 1).update 1).shouldStop,
           ((((es.update 0).update 1).update 1).update 1).shouldStop)) =
        .ok (false, false, true, true) := by
  constructor
  · intro es
    simp [EarlyStopping.shouldStop]
  · have hmk : EarlyStopping.make 2 "min" 0 = .ok ⟨2, false, 0, none, 0⟩ := rfl
    rw [hmk]
    norm_num [EarlyStopping.update, EarlyStopping.improves,
      EarlyStopping.shouldStop, Except.map]

/-- C3, counterexample: the claim says `ProgressTracker(patience=1, min_delta=0)`
fed `1.0, 1.0` has `fail()` true after the second update. On the modelled
tracker (pinned by src/delu/tests/test__tools.py lines 173-181) the second
update is neutral: one non-improving update does not exceed patience 1. -/
theorem C3_counterexample :
    ((ProgressTracker.new (some 1) 0).updates [1, 1]).fail = false := by
  norm_num [ProgressTracker.new, ProgressTracker.updates, ProgressTracker.update,
    ProgressTracker.fail]
  decide

/-- C3, amended: for `ProgressTracker(patience=1, min_delta=0)` fed `1.0` then
`1.0`, `success()` is true after the first update, the second update is neutral
(neither `success()` nor `fail()` reads true), and `fail()` becomes true only
after a third `update(1.0)` (two non-improving updates exceed patience 1). -/
theorem C3_amended :
    ((ProgressTracker.new (some 1) 0).updates [1]).success = true
    ∧ ((ProgressTracker.new (some 1) 0).updates [1, 1]).success = false
    ∧ ((ProgressTracker.new (some 1) 0).updates [1, 1]).fail = false
    ∧ ((ProgressTracker.new (some 1) 0).updates [1, 1, 1]).fail = true := by
  refine ⟨?_, ?_, ?_, ?_⟩ <;>
    norm_num [ProgressTracker.new, ProgressTracker.updates, ProgressTracker.update,
      ProgressTracker.success, ProgressTracker.fail] <;>
    decide

/-- C4, counterexample: the claim says that once `should_stop()` is true it
stays true until `reset()` regardless of later updates. On the modelled
stopper (pinned by src/delu/tests/test__tools.py lines 44-50) an improving
update clears it: `EarlyStopping(1, mode="min")` fed `1.0, 1.0` stops, but a
further `update(0.0)` makes `should_stop()` false again without any reset. -/
theorem C4_counterexample :
    (EarlyStopping.make 1 "min" 0).map
      (fun es =>
        (((es.update 1).update 1).shouldStop,
         (((es.update 1).update 1).update 0).shouldStop)) = .ok (true, false) := by
  have hmk : EarlyStopping.make 1 "min" 0 = .ok ⟨1, false, 0, none, 0⟩ := rfl
  rw [hmk]
  norm_num [EarlyStopping.update, EarlyStopping.improves,
    EarlyStopping.shouldStop, Except.map]

/-- C4, amended: for every EarlyStopping with positive patience on which
`should_stop()` reads true, `should_stop()` stays true after exactly the
non-improving `update(score)` calls: a non-improving update keeps it true,
while an improving update resets `bad_streak` to 0 and makes `should_stop()`
false again even without `reset()`. -/
theorem C4_amended (es : EarlyStopping) (score : ℚ) (hpat : 1 ≤ es.patience)
    (hstop : es.shouldStop = true) :
    (es.update score).shouldStop = true ↔ es.improves score = false := by
  have hle : es.patience ≤ es.bad_streak := by
    simpa [EarlyStopping.shouldStop] using hstop
  by_cases himp : es.improves score
  · simp [EarlyStopping.update, EarlyStopping.shouldStop, himp]
    omega
  · simp [EarlyStopping.update, EarlyStopping.shouldStop, himp]
    omega

/-- C4, witness: the amended theorem applied to the concrete stopped state of
`EarlyStopping(1, mode="min")` with best score 1 and bad streak 1, once with
the non-improving score 1 (still stopped) and once with the improving score 0
(no longer stopped). -/
theorem C4_witness :
    ((⟨1, false, 0, some 1, 1⟩ : EarlyStopping).update 1).shouldStop = true ∧
      ¬ ((⟨1, false, 0, some 1, 1⟩ : EarlyStopping).update 0).shouldStop = true := by
  have h1 := C4_amended ⟨1, false, 0, some 1, 1⟩ 1 (by norm_num)
    (by norm_num [EarlyStopping.shouldStop])
  have h0 := C4_amended ⟨1, false, 0, some 1, 1⟩ 0 (by norm_num)
    (by norm_num [EarlyStopping.shouldStop])
  constructor
  · exact h1.mpr (by norm_num [EarlyStopping.improves])
  · intro hc
    have := h0.mp hc
    norm_num [EarlyStopping.improves] at this

/-- C5: on every ProgressTracker and every EarlyStopping (with the positive
patience its constructor guarantees), `forget_bad_updates()` sets `bad_streak`
to 0, leaves `best_score` unchanged, and immediately afterwards `fail()`
respectively `should_stop()` reads false. -/
theorem C5_forget_bad_updates :
    (∀ t : ProgressTracker,
      t.forget_bad_updates.bad_streak = 0 ∧
        t.forget_bad_updates.best_score = t.best_score ∧
        t.forget_bad_updates.fail = false)
    ∧ (∀ es : EarlyStopping, 1 ≤ es.patience →
      es.forget_bad_updates.bad_streak = 0 ∧
        es.forget_bad_updates.best_score = es.best_score ∧
        es.forget_bad_updates.shouldStop = false) := by
  constructor
  · intro t
    refine ⟨rfl, rfl, ?_⟩
    simp [ProgressTracker.forget_bad_updates, ProgressTracker.fail]
  · intro es hpat
    refine ⟨rfl, rfl, ?_⟩
    simp [EarlyStopping.forget_bad_updates, EarlyStopping.shouldStop]
    omega

/-- C5, witness: the theorem applied to a concrete failing tracker state and a
concrete stopped EarlyStopping state. -/
theorem C5_witness :
    ((⟨some 1, 0, some 5, 3, .fail⟩ : ProgressTracker).forget_bad_updates.bad_streak = 0 ∧
      (⟨some 1, 0, some 5, 3, .fail⟩ : ProgressTracker).forget_bad_updates.best_score = some 5 ∧
      (⟨some 1, 0, some 5, 3, .fail⟩ : ProgressTracker).forget_bad_updates.fail = false) ∧
    ((⟨2, true, 0, some 5, 3⟩ : EarlyStopping).forget_bad_updates.bad_streak = 0 ∧
      (⟨2, true, 0, some 5, 3⟩ : EarlyStopping).forget_bad_updates.best_score = some 5 ∧
      (⟨2, true, 0, some 5, 3⟩ : EarlyStopping).forget_bad_updates.shouldStop = false) :=
  ⟨C5_forget_bad_updates.1 ⟨some 1, 0, some 5, 3, .fail⟩,
    C5_forget_bad_updates.2 ⟨2, true, 0, some 5, 3⟩ (by norm_num)⟩

/-- C6: constructing an EarlyStopping with `patience ≤ 0`, or with a mode other
than "min"/"max", or with `min_delta < 0`, yields a `ValueError` at
construction time; construction with valid arguments succeeds. -/
theorem C6_construction_validation (p : Int) (m : String) (d : ℚ) :
    ((p ≤ 0 ∨ (m ≠ "min" ∧ m ≠ "max") ∨ d < 0) →
      ∃ msg, EarlyStopping.make p m d = .error (.valueError msg))
    ∧ ((1 ≤ p ∧ (m = "min" ∨ m = "max") ∧ 0 ≤ d) →
      ∃ es, EarlyStopping.make p m d = .ok es) := by
  constructor
  · intro h
    by_cases hp : p < 1
    · exact ⟨"patience must be a positive integer", by simp [EarlyStopping.make, hp]⟩
    · by_cases hm : m = "min" ∨ m = "max"
      · have hd : d < 0 := by
          rcases h with h | h | h
          · omega
          · exact absurd hm (by tauto)
          · exact h
        exact ⟨"min_delta must be a non-negative number",
          by simp [EarlyStopping.make, hp, hm, hd]⟩
      · exact ⟨"mode must be either min or max", by simp [EarlyStopping.make, hp, hm]⟩
  · rintro ⟨hp, hm, hd⟩
    have hp' : ¬ p < 1 := by omega
    have hd' : ¬ d < 0 := not_lt.mpr hd
    exact ⟨⟨p.toNat, decide (m = "max"), d, none, 0⟩,
      by simp [EarlyStopping.make, hp', hm, hd']⟩

/-- C6, witness: the theorem applied at the concrete configurations exercised
by src/delu/tests/test__tools.py lines 10-15 (patience 0; mode "hello";
min_delta -1) and at the valid configuration `(1, "min", 0)`. -/
theorem C6_witness :
    (∃ msg, EarlyStopping.make 0 "max" 0 = .error (.valueError msg)) ∧
      (∃ msg, EarlyStopping.make 1 "hello" 0 = .error (.valueError msg)) ∧
      (∃ msg, EarlyStopping.make 1 "min" (-1) = .error (.valueError msg)) ∧
      (∃ es, EarlyStopping.make 1 "min" 0 = .ok es) :=
  ⟨(C6_construction_validation 0 "max" 0).1 (Or.inl (by norm_num)),
    (C6_construction_validation 1 "hello" 0).1 (Or.inr (Or.inl (by decide))),
    (C6_construction_validation 1 "min" (-1)).1 (Or.inr (Or.inr (by norm_num))),
    (C6_construction_validation 1 "min" 0).2 ⟨le_refl 1, Or.inl rfl, le_refl 0⟩⟩

/-- C7: `pause()` on a timer that has never been run raises an
`AssertionError`, and `add`/`sub` with a negative argument raise an
`AssertionError`, in each case leaving the timer unchanged; the
`AssertionError` raised for these usage errors is distinct from the
`ValueError` raised for invalid configuration. -/
theorem C7_usage_errors :
    (∀ (t : Timer) (now : ℚ), t.phase = .idle →
      t.pause now = (some .assertionError, t))
    ∧ (∀ (t : Timer) (d : ℚ), d < 0 →
      t.add d = (some .assertionError, t) ∧ t.sub d = (some .assertionError, t))
    ∧ (∀ msg, PyErr.assertionError ≠ PyErr.valueError msg) := by
  refine ⟨?_, ?_, ?_⟩
  · intro t now h
    cases t with
    | mk acc ph => cases ph <;> simp_all [Timer.pause]
  · intro t d h
    constructor <;> simp [Timer.add, Timer.sub, h]
  · intro msg hne
    exact PyErr.noConfusion hne

/-- C7, witness: the theorem applied to the freshly constructed (never-run)
timer, with `-1` as the negative adjustment. -/
theorem C7_witness :
    Timer.initial.pause 0 = (some .assertionError, Timer.initial) ∧
      Timer.initial.add (-1) = (some .assertionError, Timer.initial) ∧
      Timer.initial.sub (-1) = (some .assertionError, Timer.initial) ∧
      PyErr.assertionError ≠ PyErr.valueError "x" :=
  ⟨C7_usage_errors.1 Timer.initial 0 rfl,
    (C7_usage_errors.2.1 Timer.initial (-1) (by norm_num)).1,
    (C7_usage_errors.2.1 Timer.initial (-1) (by norm_num)).2,
    C7_usage_errors.2.2 "x"⟩

/-- A matched `add x` then `sub x` pair leaves the timer state exactly as it
was, whether `x` is non-negative (the adjustments cancel) or negative (both
operations raise and change nothing). -/
theorem Timer.addSubPair_id (x : ℚ) (t : Timer) : t.addSubPair x = t := by
  by_cases h : x < 0
  · simp [Timer.addSubPair, Timer.add, Timer.sub, h]
  · simp [Timer.addSubPair, Timer.add, Timer.sub, h]

/-- A finite sequence of matched `add`/`sub` pairs leaves the timer state
exactly as it was. -/
theorem Timer.addSubPairs_id (xs : List ℚ) (t : Timer) : t.addSubPairs xs = t := by
  induction xs generalizing t with
  | nil => rfl
  | cons x xs ih =>
      rw [Timer.addSubPairs, List.foldl_cons, Timer.addSubPair_id]
      exact ih t

/-- C8: for every paused Timer and every finite sequence of `add(x)`/`sub(x)`
pairs with matching non-negative magnitudes, `elapsed()` after executing the
sequence equals its value before the sequence (`sub` is the inverse of
`add`). -/
theorem C8_add_sub_inverse (t : Timer) (xs : List ℚ) (now : ℚ)
    (hph : t.phase = .paused) (hx : ∀ x ∈ xs, 0 ≤ x) :
    (t.addSubPairs xs).elapsed now = t.elapsed now := by
  rw [Timer.addSubPairs_id]

/-- C8, witness: the theorem applied to a paused timer with 5 accumulated
seconds and the single matched pair of magnitude 1. -/
theorem C8_witness :
    ((⟨5, .paused⟩ : Timer).addSubPairs [1]).elapsed 0 =
      (⟨5, .paused⟩ : Timer).elapsed 0 :=
  C8_add_sub_inverse ⟨5, .paused⟩ [1] 0 rfl
    (fun x hx => by rw [List.mem_singleton] at hx; subst hx; norm_num)

/-- C9: rendering the elapsed time as a string yields `H:MM:SS[.ffffff]` with
the fractional part included exactly when the elapsed value is non-integral:
elapsed 1 renders as "0:00:01", elapsed 1.1 renders as "0:00:01.100000", in
general the rendering equals the plain `H:MM:SS` part if and only if the
microsecond remainder is zero, and `Timer.format` renders the same duration
through a caller-supplied strftime-like pattern (7321 seconds through
"%Hh %Mm %Ss" gives "02h 02m 01s"). -/
theorem C9_rendering :
    Timer.timeStr 0 ((Timer.initial.add 1).2) = "0:00:01"
    ∧ Timer.timeStr 0 ((Timer.initial.add (11/10)).2) = "0:00:01.100000"
    ∧ (∀ us : Nat, timedeltaStr us = timedeltaHMS us ↔ us % 1000000 = 0)
    ∧ Timer.format 0 ((Timer.initial.add 7321).2) "%Hh %Mm %Ss" = "02h 02m 01s" := by
  refine ⟨?_, ?_, ?_, ?_⟩
  · have h : microsOfRat (Timer.elapsed 0 ((Timer.initial.add 1).2)) = 1000000 := by
      norm_num [Timer.initial, Timer.add, Timer.elapsed, microsOfRat]
      decide
    rw [Timer.timeStr, h]
    decide
  · have h : microsOfRat (Timer.elapsed 0 ((Timer.initial.add (11/10)).2)) = 1100000 := by
      norm_num [Timer.initial, Timer.add, Timer.elapsed, microsOfRat]
      decide
    rw [Timer.timeStr, h]
    decide
  · intro us
    constructor
    · intro heq
      by_contra hne
      simp only [timedeltaStr, if_neg hne] at heq
      apply_fun String.length at heq
      simp only [String.length_append] at heq
      have hdot : (".").length = 1 := rfl
      omega
    · intro h
      simp [timedeltaStr, h]
  · have h : microsOfRat 0 = 0 := by norm_num [microsOfRat]
    have helapsed : Timer.elapsed 0 ((Timer.initial.add 7321).2) = 7321 := by
      norm_num [Timer.initial, Timer.add, Timer.elapsed]
    rw [Timer.format, helapsed]
    norm_num
    decide

/-- C10: `IndexDataset(n)` raises a `ValueError` exactly when `n < 1`; a
successfully constructed `IndexDataset(n)` has length `n`, and `__getitem__(i)`
returns `i` itself when `0 ≤ i < n` and raises `IndexError` otherwise,
including for every negative `i`. -/
theorem C10_index_dataset (n : Int) :
    ((∃ msg, IndexDataset.make n = .error (.valueError msg)) ↔ n < 1)
    ∧ (∀ d : IndexDataset, IndexDataset.make n = .ok d →
        d.len = n ∧ ∀ i : Int,
          ((0 ≤ i ∧ i < n) → d.getitem i = .ok i)
          ∧ ((i < 0 ∨ n ≤ i) → ∃ msg, d.getitem i = .error (.indexError msg))) := by
  constructor
  · constructor
    · rintro ⟨msg, hm⟩
      by_contra hn
      simp [IndexDataset.make, hn] at hm
    · intro hn
      exact ⟨"size must be positive", by simp [IndexDataset.make, hn]⟩
  · intro d hd
    have hn : ¬ n < 1 := by
      by_contra hn
      simp [IndexDataset.make, hn] at hd
    simp only [IndexDataset.make, if_neg hn, Except.ok.injEq] at hd
    subst hd
    refine ⟨rfl, ?_⟩
    intro i
    constructor
    · rintro ⟨h0, hlt⟩
      have hcond : ¬ (i < 0 ∨ (⟨n⟩ : IndexDataset).size ≤ i) := by
        simp only [not_or, not_lt, not_le]
        exact ⟨h0, hlt⟩
      simp [IndexDataset.getitem, hcond]
    · intro h
      exact ⟨"index is out of range", by simp [IndexDataset.getitem, h]⟩

/-- C10, witness: the theorem applied at size 3 (with in-range index 1 and
out-of-range index -1) and at the invalid size 0. -/
theorem C10_witness :
    IndexDataset.len ⟨3⟩ = 3 ∧ IndexDataset.getitem ⟨3⟩ 1 = .ok 1 ∧
      (∃ msg, IndexDataset.getitem ⟨3⟩ (-1) = .error (.indexError msg)) ∧
      (∃ msg, IndexDataset.make 0 = .error (.valueError msg)) := by
  have h := (C10_index_dataset 3).2 ⟨3⟩ (by norm_num [IndexDataset.make])
  exact ⟨h.1, (h.2 1).1 (by norm_num), (h.2 (-1)).2 (Or.inl (by norm_num)),
    ((C10_index_dataset 0).1).mpr (by norm_num)⟩

end Delu
